import Mathlib

/-!
Shallow embedding of the WebSocket Pong server (src/main.go) and proofs of
the specification's claims about it.  Paddle state, seat assignment, the
per-connection read loop, JSON field emission and the broadcast fan-out are
translated from the Go source; the ball physics of the full-simulation
variant is absent from src and is modelled from the spec where needed.
-/

namespace PongServer

/-- Canvas height in pixels (src/main.go, const CanvasHeight). -/
def CanvasHeight : Int := 600

/-- Paddle height in pixels (src/main.go, const PaddleHeight). -/
def PaddleHeight : Int := 100

/-- Maximum paddle Y offset (src/main.go, const MaxPaddleY). -/
def MaxPaddleY : Int := CanvasHeight - PaddleHeight

/-- Wire message, mirroring the Go struct Message.  `y` is a pointer in Go
so that null is detectable; it is embedded as an `Option Int`.  The other
numeric fields are plain ints whose Go zero value is 0, which is also what
an inbound JSON object lacking them decodes to. -/
structure Message where
  type : String
  player : String
  y : Option Int
  leftY : Int
  rightY : Int
deriving DecidableEq

/-- Authoritative game state: the two paddle vertical offsets
(Go struct GameState; the mutex is a concurrency artefact with no
sequential content). -/
structure GameState where
  PanYLeft : Int
  PanYRight : Int
deriving DecidableEq

/-- Initial game state (Go var gameState): both paddles centered. -/
def initialGameState : GameState :=
  { PanYLeft := CanvasHeight / 2 - PaddleHeight / 2
    PanYRight := CanvasHeight / 2 - PaddleHeight / 2 }

/-- Go func clampYPosition: force a requested Y into [0, MaxPaddleY]. -/
def clampYPosition (y : Int) : Int :=
  if y < 0 then 0
  else if y > MaxPaddleY then MaxPaddleY
  else y

/-- The body of the read loop of handleConnections (src/main.go lines
206-227) applied to one successfully parsed message.  `connPlayer` is the
seat granted to the connection at setup; the Go code never consults it
here, it dispatches on the message's own player field.  Returns the new
game state and whether broadcastUpdate was invoked. -/
def handleMessage (connPlayer : String) (msg : Message) (gs : GameState) :
    GameState × Bool :=
  if msg.type == "move" && msg.player != "" && msg.y.isSome then
    let gs' :=
      if msg.player == "left" then
        let clampedY := clampYPosition (msg.y.getD 0)
        if clampedY != gs.PanYLeft then { gs with PanYLeft := clampedY } else gs
      else if msg.player == "right" then
        let clampedY := clampYPosition (msg.y.getD 0)
        if clampedY != gs.PanYRight then { gs with PanYRight := clampedY } else gs
      else gs
    (gs', true)
  else (gs, false)

/-- One iteration of the read loop in handleConnections.  `none` models a
ReadJSON failure, on which the Go loop breaks; `some msg` a successfully
parsed inbound message.  Returns the new state, whether a broadcast was
triggered, and whether the loop continues. -/
def readLoopStep (connPlayer : String) (gs : GameState) (input : Option Message) :
    GameState × Bool × Bool :=
  match input with
  | none => (gs, false, false)
  | some msg =>
      let r := handleMessage connPlayer msg gs
      (r.1, r.2, true)

/-- The stored offset of the paddle a player string addresses. -/
def paddlePos (p : String) (gs : GameState) : Int :=
  if p == "left" then gs.PanYLeft else gs.PanYRight

/-- Folding a sequence of move messages through the read-loop handler:
each element is the player field and the y value of one move message. -/
def runMoves (gs : GameState) (ms : List (String × Int)) : GameState :=
  ms.foldl
    (fun g m =>
      (handleMessage m.1
        { type := "move", player := m.1, y := some m.2, leftY := 0, rightY := 0 }
        g).1)
    gs

/-- The JSON keys json.Marshal emits for a Message, following the struct
tags in src/main.go: `type` has no omitempty; `player`, `y`, `leftY` and
`rightY` carry omitempty, so Go drops each of them at its zero value
(empty string, nil pointer, integer 0). -/
def marshalKeys (m : Message) : List String :=
  ["type"]
    ++ (if m.player != "" then ["player"] else [])
    ++ (if m.y.isSome then ["y"] else [])
    ++ (if m.leftY != 0 then ["leftY"] else [])
    ++ (if m.rightY != 0 then ["rightY"] else [])

/-- The update message broadcastUpdate builds from the game state. -/
def updateMessage (gs : GameState) : Message :=
  { type := "update", player := "", y := none
    leftY := gs.PanYLeft, rightY := gs.PanYRight }

/-- The assignedPlayers registry: connection ids mapped to the role they
hold.  A Go map, embedded as an association list with distinct keys. -/
abbrev Registry := List (Nat × String)

/-- The clients fan-out set: connection ids mapped to their player string
(Go var clients). -/
abbrev Clients := List (Nat × String)

/-- The occupancy scan at the top of assignPlayer: Go iterates over the
map values filling a roles map for "left" and "right".  Returns the pair
(left taken, right taken); the fold is order-insensitive, matching Go's
unspecified map iteration order. -/
def scanRoles (reg : Registry) : Bool × Bool :=
  reg.foldl
    (fun acc e =>
      ((if e.2 == "left" then true else acc.1),
       (if e.2 == "right" then true else acc.2)))
    (false, false)

/-- Go func assignPlayer: grant "left" if free, else "right" if free, else
"none"; on a grant the connection is inserted into the registry. -/
def assignPlayer (conn : Nat) (reg : Registry) : String × Registry :=
  let roles := scanRoles reg
  let assigned :=
    if !roles.1 then "left"
    else if !roles.2 then "right"
    else "none"
  if assigned != "none" then (assigned, (conn, assigned) :: reg)
  else (assigned, reg)

/-- Deletion of a connection from the registry (Go delete(assignedPlayers,
ws) on disconnect). -/
def releasePlayer (conn : Nat) (reg : Registry) : Registry :=
  reg.filter (fun e => e.1 != conn)

/-- Whether some connection currently holds the given role. -/
def roleOccupied (reg : Registry) (role : String) : Bool :=
  reg.any (fun e => e.2 == role)

/-- Number of connections holding the given role. -/
def countRole (reg : Registry) (role : String) : Nat :=
  (reg.filter (fun e => e.2 == role)).length

/-- Registry states reachable from the empty registry through the
operations handleConnections performs: assignment of a fresh connection
and release on disconnect. -/
inductive ReachableReg : Registry → Prop
  | init : ReachableReg []
  | assign (conn : Nat) (reg : Registry) :
      ReachableReg reg → (∀ r, (conn, r) ∉ reg) →
      ReachableReg (assignPlayer conn reg).2
  | release (conn : Nat) (reg : Registry) :
      ReachableReg reg → ReachableReg (releasePlayer conn reg)

/-- Error message sent to a connection rejected for lack of a free seat
(src/main.go lines 157-165). -/
def errorNoneMessage : Message :=
  { type := "error", player := "none", y := none, leftY := 0, rightY := 0 }

/-- Assign message sent after a successful seat grant. -/
def assignMessage (player : String) : Message :=
  { type := "assign", player := player, y := none, leftY := 0, rightY := 0 }

/-- Connection setup in handleConnections (src/main.go lines 150-193):
consult assignPlayer; on "none" send the error reply and register nothing;
otherwise register the connection for fan-out and send the assign message
followed by the initial state snapshot.  Returns the new registry, the new
fan-out set, and the messages written to the new connection. -/
def handleConnSetup (conn : Nat) (reg : Registry) (clients : Clients)
    (gs : GameState) : Registry × Clients × List Message :=
  let a := assignPlayer conn reg
  if a.1 == "none" then
    (a.2, clients, [errorNoneMessage])
  else
    (a.2, (conn, a.1) :: clients, [assignMessage a.1, updateMessage gs])

/-- Disconnect cleanup (src/main.go lines 230-237): the connection leaves
both the fan-out set and the seat registry. -/
def disconnectCleanup (conn : Nat) (reg : Registry) (clients : Clients) :
    Registry × Clients :=
  (releasePlayer conn reg, clients.filter (fun e => e.1 != conn))

/-- The fan-out loop of broadcastUpdate (src/main.go lines 78-88): write
the serialized update to each registered client; a failed write closes and
deletes that client only.  `writeOk` tells whether the write on a given
connection succeeds.  Returns the surviving client set and the connection
ids the message was delivered to. -/
def broadcastLoop (writeOk : Nat → Bool) : Clients → Clients × List Nat
  | [] => ([], [])
  | e :: rest =>
      let r := broadcastLoop writeOk rest
      if writeOk e.1 then (e :: r.1, e.1 :: r.2) else r

/-- Canvas width in pixels (full-simulation main.go inside src/Dockerfile,
const CanvasWidth). -/
def CanvasWidth : Int := 800

/-- Paddle width in pixels (full-simulation main.go inside src/Dockerfile,
const PaddleWidth). -/
def PaddleWidth : Int := 20

/-- Ball state of the full-simulation variant (struct Ball in the
full-simulation main.go inside src/Dockerfile).  The Go fields are
float64, embedded as rationals: an exact model of the real-number
arithmetic the code performs. -/
structure Ball where
  X : ℚ
  Y : ℚ
  Vx : ℚ
  Vy : ℚ
deriving DecidableEq

/-- Go conversion int(f) of a float64: truncation toward zero, as applied
to the ball's y in the code's paddle collision checks. -/
def goInt (q : ℚ) : Int := if 0 ≤ q then ⌊q⌋ else ⌈q⌉

/-- Go func resetGame (full-simulation main.go inside src/Dockerfile):
ball back to the canvas center with the fixed serve velocity (4.0, 4.0). -/
def resetGame : Ball :=
  { X := ((CanvasWidth / 2 : Int) : ℚ), Y := ((CanvasHeight / 2 : Int) : ℚ)
    Vx := 4, Vy := 4 }

/-- The initial ball of the full-simulation variant (var gameState):
canvas center, velocity (4.0, 4.0). -/
def initialBall : Ball :=
  { X := ((CanvasWidth / 2 : Int) : ℚ), Y := ((CanvasHeight / 2 : Int) : ℚ)
    Vx := 4, Vy := 4 }

/-- Go func updateBallPosition (full-simulation main.go inside
src/Dockerfile): integrate the position by the velocity, then in source
order the top wall, bottom wall, left paddle and right paddle collision
ifs, then the two sequential game-over checks, each resetting the ball
and naming the round's winner.  The paddle checks compare the
int-truncated ball y against the paddle's integer range. -/
def updateBallPosition (leftY rightY : Int) (b0 : Ball) : Ball × Option String :=
  let b1 : Ball := { b0 with X := b0.X + b0.Vx, Y := b0.Y + b0.Vy }
  let b2 : Ball := if b1.Y ≤ 0 then { b1 with Y := 0, Vy := -b1.Vy } else b1
  let b3 : Ball :=
    if b2.Y ≥ (CanvasHeight : ℚ) then
      { b2 with Y := (CanvasHeight : ℚ), Vy := -b2.Vy }
    else b2
  let b4 : Ball :=
    if b3.X ≤ (PaddleWidth : ℚ) then
      (if goInt b3.Y ≥ leftY ∧ goInt b3.Y ≤ leftY + PaddleHeight then
        { b3 with X := (PaddleWidth : ℚ), Vx := -b3.Vx }
      else b3)
    else b3
  let b5 : Ball :=
    if b4.X ≥ ((CanvasWidth - PaddleWidth : Int) : ℚ) then
      (if goInt b4.Y ≥ rightY ∧ goInt b4.Y ≤ rightY + PaddleHeight then
        { b4 with X := ((CanvasWidth - PaddleWidth : Int) : ℚ), Vx := -b4.Vx }
      else b4)
    else b4
  let r1 : Ball × Option String :=
    if b5.X < 0 then (resetGame, some "right") else (b5, none)
  if r1.1.X > (CanvasWidth : ℚ) then (resetGame, some "left") else r1

theorem if_if_neg {α : Type} (A B : Prop) [Decidable A] [Decidable B]
    (t e : α) (h : ¬(A ∧ B)) :
    (if A then (if B then t else e) else e) = e := by
  by_cases hA : A
  · rw [if_pos hA, if_neg (fun hB => h ⟨hA, hB⟩)]
  · rw [if_neg hA]

/-! Helper lemmas about the seat registry. -/

theorem scanRoles_go (reg : Registry) (a b : Bool) :
    reg.foldl
      (fun acc e =>
        ((if e.2 == "left" then true else acc.1),
         (if e.2 == "right" then true else acc.2)))
      (a, b)
    = (a || roleOccupied reg "left", b || roleOccupied reg "right") := by
  induction reg generalizing a b with
  | nil => simp [roleOccupied]
  | cons e rest ih =>
    simp only [List.foldl_cons, ih, roleOccupied, List.any_cons]
    by_cases h : e.2 == "left" <;> by_cases h' : e.2 == "right" <;>
      simp [h, h', Bool.or_comm, Bool.or_assoc, Bool.or_left_comm]

theorem scanRoles_eq (reg : Registry) :
    scanRoles reg = (roleOccupied reg "left", roleOccupied reg "right") := by
  simpa [scanRoles] using scanRoles_go reg false false

theorem roleOccupied_false_iff (reg : Registry) (role : String) :
    roleOccupied reg role = false ↔ countRole reg role = 0 := by
  simp [roleOccupied, countRole, List.any_eq_false, List.length_eq_zero,
    List.filter_eq_nil_iff]

theorem countRole_cons (conn : Nat) (r role : String) (reg : Registry) :
    countRole ((conn, r) :: reg) role
      = (if r == role then 1 else 0) + countRole reg role := by
  by_cases h : r == role <;> simp [countRole, List.filter_cons, h] <;> omega

/-- Every reachable registry holds at most one connection per seat. -/
theorem reachable_countRole_le_one (reg : Registry) (h : ReachableReg reg)
    (role : String) : countRole reg role ≤ 1 := by
  induction h with
  | init => simp [countRole]
  | assign conn reg hr hfresh ih =>
    unfold assignPlayer
    rw [scanRoles_eq]
    by_cases hL : roleOccupied reg "left"
    · by_cases hR : roleOccupied reg "right"
      · simpa [hL, hR] using ih
      · have h0 : countRole reg "right" = 0 :=
          (roleOccupied_false_iff reg "right").mp (by simpa using hR)
        by_cases hrole : ("right" : String) == role
        · simp only [hL, hR, Bool.false_eq_true, if_false, if_true,
            Bool.not_false, Bool.not_true, reduceIte, countRole_cons]
          simp only [beq_iff_eq] at hrole
          subst hrole
          simp [h0, countRole_cons]
        · simp only [hL, hR] at *
          simpa [countRole_cons, hrole] using ih
    · by_cases hrole : ("left" : String) == role
      · have h0 : countRole reg "left" = 0 :=
          (roleOccupied_false_iff reg "left").mp (by simpa using hL)
        simp only [beq_iff_eq] at hrole
        subst hrole
        simp [hL, countRole_cons, h0]
      · simpa [hL, countRole_cons, hrole] using ih
  | release conn reg hr ih =>
    have hsub : List.Sublist ((releasePlayer conn reg).filter (fun e => e.2 == role))
        (reg.filter (fun e => e.2 == role)) :=
      List.Sublist.filter _ (List.filter_sublist reg)
    exact le_trans hsub.length_le ih

theorem length_two_le_of_mem (l : List (Nat × String)) (a b : Nat × String)
    (ha : a ∈ l) (hb : b ∈ l) (hab : a ≠ b) : 2 ≤ l.length := by
  match l with
  | [] => cases ha
  | [x] =>
    rw [List.mem_singleton] at ha hb
    exact absurd (ha.trans hb.symm) hab
  | x :: y :: t => simp [Nat.succ_le_succ, Nat.le_add_left]

/-- Releasing the connection that holds a role frees that role, provided
the registry held the role at most once. -/
theorem role_free_after_release (reg : Registry) (conn : Nat) (role : String)
    (hmem : (conn, role) ∈ reg) (hcount : countRole reg role ≤ 1) :
    roleOccupied (releasePlayer conn reg) role = false := by
  by_contra h
  rw [Bool.not_eq_false, roleOccupied, List.any_eq_true] at h
  obtain ⟨e, he, hrole⟩ := h
  rw [releasePlayer, List.mem_filter] at he
  obtain ⟨hereg, hkey⟩ := he
  have hne : e ≠ (conn, role) := by
    intro hcontra
    rw [hcontra] at hkey
    simp at hkey
  have hmem1 : (conn, role) ∈ reg.filter (fun e => e.2 == role) :=
    List.mem_filter.mpr ⟨hmem, by simp⟩
  have hmem2 : e ∈ reg.filter (fun e => e.2 == role) :=
    List.mem_filter.mpr ⟨hereg, hrole⟩
  have h2 := length_two_le_of_mem _ _ _ hmem2 hmem1 hne
  rw [countRole] at hcount
  omega

theorem assign_grants_left (conn : Nat) (reg : Registry)
    (h : roleOccupied reg "left" = false) :
    assignPlayer conn reg = ("left", (conn, "left") :: reg) := by
  simp [assignPlayer, scanRoles_eq, h]

theorem assign_grants_right (conn : Nat) (reg : Registry)
    (hl : roleOccupied reg "left" = true) (hr : roleOccupied reg "right" = false) :
    assignPlayer conn reg = ("right", (conn, "right") :: reg) := by
  simp [assignPlayer, scanRoles_eq, hl, hr]

theorem assign_full_none (conn : Nat) (reg : Registry)
    (hl : roleOccupied reg "left" = true) (hr : roleOccupied reg "right" = true) :
    assignPlayer conn reg = ("none", reg) := by
  simp [assignPlayer, scanRoles_eq, hl, hr]

/-- Every entry of a reachable registry holds the role left or right. -/
theorem reachable_roles (reg : Registry) (h : ReachableReg reg) :
    ∀ e ∈ reg, e.2 = "left" ∨ e.2 = "right" := by
  induction h with
  | init => intro e he; cases he
  | assign conn reg hr hfresh ih =>
    intro e he
    unfold assignPlayer at he
    rw [scanRoles_eq] at he
    by_cases hl : roleOccupied reg "left"
    · by_cases hrr : roleOccupied reg "right"
      · exact ih e (by simpa [hl, hrr] using he)
      · simp only [hl, hrr] at he
        rcases (by simpa using he : e = (conn, "right") ∨ e ∈ reg) with rfl | hmem
        · exact Or.inr rfl
        · exact ih e hmem
    · simp only [hl] at he
      rcases (by simpa using he : e = (conn, "left") ∨ e ∈ reg) with rfl | hmem
      · exact Or.inl rfl
      · exact ih e hmem
  | release conn reg hr ih =>
    intro e he
    exact ih e (List.mem_of_mem_filter he)

/-- Applying a move message addressed to the left player stores the
clamped y in the left paddle slot. -/
theorem handleMessage_left (connPlayer : String) (y lY rY : Int) (gs : GameState) :
    (handleMessage connPlayer
        { type := "move", player := "left", y := some y, leftY := lY, rightY := rY }
        gs).1
      = { gs with PanYLeft := clampYPosition y } := by
  by_cases hb : clampYPosition y = gs.PanYLeft <;> simp [handleMessage, hb]

/-- Applying a move message addressed to the right player stores the
clamped y in the right paddle slot. -/
theorem handleMessage_right (connPlayer : String) (y lY rY : Int) (gs : GameState) :
    (handleMessage connPlayer
        { type := "move", player := "right", y := some y, leftY := lY, rightY := rY }
        gs).1
      = { gs with PanYRight := clampYPosition y } := by
  by_cases hb : clampYPosition y = gs.PanYRight <;> simp [handleMessage, hb]

/-- A move message naming a player other than left or right passes the
validity guard but changes nothing, and still triggers a broadcast. -/
theorem handleMessage_other (connPlayer p : String) (y lY rY : Int) (gs : GameState)
    (hne : p ≠ "") (hl : p ≠ "left") (hr : p ≠ "right") :
    handleMessage connPlayer
        { type := "move", player := p, y := some y, leftY := lY, rightY := rY } gs
      = (gs, true) := by
  simp [handleMessage, hne, hl, hr]

/-- The code's clamp agrees with the mathematical clamp into
[0, MaxPaddleY]. -/
theorem clampY_eq_clamp (y : Int) :
    clampYPosition y = max 0 (min y MaxPaddleY) := by
  have hM : MaxPaddleY = 500 := by decide
  simp only [clampYPosition, hM]
  by_cases h1 : y < 0 <;> by_cases h2 : y > 500 <;> simp [h1, h2] <;> omega

/-- The broadcast fan-out loop keeps exactly the clients whose write
succeeds and delivers to exactly those clients. -/
theorem broadcastLoop_eq (writeOk : Nat → Bool) (clients : Clients) :
    broadcastLoop writeOk clients
      = (clients.filter (fun e => writeOk e.1),
         (clients.filter (fun e => writeOk e.1)).map (fun e => e.1)) := by
  induction clients with
  | nil => rfl
  | cons e rest ih =>
    by_cases h : writeOk e.1 <;> simp [broadcastLoop, ih, h, List.filter_cons]

/-! Claim theorems. -/

/-- C1: for every sequence of move messages with arbitrary integer y, the
paddle position stored for the addressed seat after each applied move
equals clamp(y, 0, MaxPaddleY), with MaxPaddleY = CanvasHeight -
PaddleHeight = 500. -/
theorem claim_C1_move_clamp (gs : GameState) (ms : List (String × Int))
    (p : String) (y : Int) (hp : p = "left" ∨ p = "right") :
    MaxPaddleY = 500 ∧
      paddlePos p (runMoves gs (ms ++ [(p, y)])) = max 0 (min y MaxPaddleY) := by
  refine ⟨by decide, ?_⟩
  rw [runMoves, List.foldl_append]
  rcases hp with rfl | rfl <;>
    simp [handleMessage_left, handleMessage_right, paddlePos, clampY_eq_clamp]

/-- Witness for C1 at a concrete two-move sequence ending in an
out-of-range request. -/
theorem claim_C1_move_clamp_witness :
    MaxPaddleY = 500 ∧
      paddlePos "left" (runMoves initialGameState ([("right", 20)] ++ [("left", 700)]))
        = max 0 (min 700 MaxPaddleY) :=
  claim_C1_move_clamp initialGameState [("right", 20)] "left" 700 (Or.inl rfl)

/-- C2: in every reachable registry state at most one connection holds
left and at most one holds right, and while both seats are occupied any
further assignment returns none and leaves the registry unchanged. -/
theorem claim_C2_seat_injective (reg : Registry) (h : ReachableReg reg) (conn : Nat) :
    countRole reg "left" ≤ 1 ∧ countRole reg "right" ≤ 1 ∧
      (roleOccupied reg "left" = true → roleOccupied reg "right" = true →
        (assignPlayer conn reg).1 = "none" ∧ (assignPlayer conn reg).2 = reg) := by
  refine ⟨reachable_countRole_le_one reg h "left",
    reachable_countRole_le_one reg h "right", fun hl hr => ?_⟩
  rw [assign_full_none conn reg hl hr]
  exact ⟨rfl, rfl⟩

/-- A fully occupied registry: connection 1 holds left, connection 2
holds right. -/
def regFull : Registry := [(2, "right"), (1, "left")]

/-- The fully occupied registry is reachable by two assignments. -/
theorem regFull_reachable : ReachableReg regFull := by
  have hfresh1 : ∀ r, ((1 : Nat), r) ∉ ([] : Registry) := by
    intro r hmem; cases hmem
  have h1 := ReachableReg.assign 1 [] ReachableReg.init hfresh1
  have e1 : (assignPlayer 1 []).2 = [(1, "left")] := by decide
  rw [e1] at h1
  have hfresh2 : ∀ r, ((2 : Nat), r) ∉ [((1 : Nat), "left")] := by
    intro r hmem; simp at hmem
  have h2 := ReachableReg.assign 2 [(1, "left")] h1 hfresh2
  have e2 : (assignPlayer 2 [(1, "left")]).2 = regFull := by decide
  rw [e2] at h2
  exact h2

/-- Witness for C2 at the reachable fully occupied registry. -/
theorem claim_C2_seat_injective_witness :
    countRole regFull "left" ≤ 1 ∧ countRole regFull "right" ≤ 1 ∧
      ((assignPlayer 3 regFull).1 = "none" ∧ (assignPlayer 3 regFull).2 = regFull) :=
  ⟨(claim_C2_seat_injective regFull regFull_reachable 3).1,
   (claim_C2_seat_injective regFull regFull_reachable 3).2.1,
   (claim_C2_seat_injective regFull regFull_reachable 3).2.2 (by decide) (by decide)⟩

/-- Counterexample to C3 as stated: a connection holding the right seat
sends a move message naming left, and the left paddle changes — the code
dispatches on the message's player field and never checks it against the
seat the connection holds. -/
theorem claim_C3_cex :
    (handleMessage "right"
        { type := "move", player := "left", y := some 100, leftY := 0, rightY := 0 }
        initialGameState).1.PanYLeft = 100
      ∧ initialGameState.PanYLeft = 250 := by decide

/-- C3 amended: the paddle position of a seat changes only through a move
message whose player field names that seat and whose y is non-null; the
seat held by the sending connection is not consulted, so any registered
connection can move either paddle by naming it. -/
theorem claim_C3_owner_write (connPlayer : String) (msg : Message) (gs : GameState) :
    (msg.player ≠ "left" → (handleMessage connPlayer msg gs).1.PanYLeft = gs.PanYLeft)
  ∧ (msg.player ≠ "right" → (handleMessage connPlayer msg gs).1.PanYRight = gs.PanYRight)
  ∧ (msg.type ≠ "move" ∨ msg.y = none → (handleMessage connPlayer msg gs).1 = gs) := by
  refine ⟨fun hp => ?_, fun hp => ?_, fun hd => ?_⟩
  · simp only [handleMessage]
    split_ifs with h1 h2 h3 h4 h5 <;> simp_all
  · simp only [handleMessage]
    split_ifs with h1 h2 h3 h4 h5 <;> simp_all
  · have hguard : (msg.type == "move" && msg.player != "" && msg.y.isSome) = false := by
      rcases hd with h | h <;> simp [h]
    simp [handleMessage, hguard]

/-- Witness for C3 amended: a move naming right leaves the left paddle
alone, a move naming left leaves the right paddle alone, and a non-move
message changes nothing. -/
theorem claim_C3_owner_write_witness :
    ((handleMessage "left"
        { type := "move", player := "right", y := some 10, leftY := 0, rightY := 0 }
        initialGameState).1.PanYLeft = initialGameState.PanYLeft)
  ∧ ((handleMessage "left"
        { type := "chat", player := "left", y := some 10, leftY := 0, rightY := 0 }
        initialGameState).1 = initialGameState) :=
  ⟨(claim_C3_owner_write "left"
      { type := "move", player := "right", y := some 10, leftY := 0, rightY := 0 }
      initialGameState).1 (by decide),
   (claim_C3_owner_write "left"
      { type := "chat", player := "left", y := some 10, leftY := 0, rightY := 0 }
      initialGameState).2.2 (Or.inl (by decide))⟩

/-- C4: a malformed inbound message — wrong type, empty player, or
missing/null y — changes neither paddle, triggers no broadcast, and the
read loop continues; in particular a move whose y is absent is rejected,
not applied as 0. -/
theorem claim_C4_malformed (connPlayer : String) (gs : GameState) (msg : Message)
    (h : msg.type ≠ "move" ∨ msg.player = "" ∨ msg.y = none) :
    readLoopStep connPlayer gs (some msg) = (gs, false, true) := by
  have hguard : (msg.type == "move" && msg.player != "" && msg.y.isSome) = false := by
    rcases h with h | h | h <;> simp [h]
  simp [readLoopStep, handleMessage, hguard]

/-- Witness for C4: a move with a null y leaves the state alone and the
loop running. -/
theorem claim_C4_malformed_witness :
    readLoopStep "left" initialGameState
        (some { type := "move", player := "left", y := none, leftY := 0, rightY := 0 })
      = (initialGameState, false, true) :=
  claim_C4_malformed "left" initialGameState
    { type := "move", player := "left", y := none, leftY := 0, rightY := 0 }
    (Or.inr (Or.inr rfl))

/-- C5 fails on the code: leftY and rightY carry omitempty in the struct
tags, so once the left paddle reaches offset 0 — reachable from the
initial state by one move — the serialized update message omits the leftY
key entirely, while still carrying rightY. -/
theorem claim_C5_omitempty_bug :
    ((handleMessage "left"
        { type := "move", player := "left", y := some 0, leftY := 0, rightY := 0 }
        initialGameState).1.PanYLeft = 0)
  ∧ "leftY" ∉ marshalKeys (updateMessage
        (handleMessage "left"
          { type := "move", player := "left", y := some 0, leftY := 0, rightY := 0 }
          initialGameState).1)
  ∧ "rightY" ∈ marshalKeys (updateMessage
        (handleMessage "left"
          { type := "move", player := "left", y := some 0, leftY := 0, rightY := 0 }
          initialGameState).1) := by decide

/-- C6: during a broadcast, a write failure on one registered connection
removes only that connection; every registered connection whose write
succeeds receives the update and stays registered, and the surviving set
contains nothing new. -/
theorem claim_C6_broadcast_isolation (writeOk : Nat → Bool) (clients : Clients)
    (c : Nat × String) (hc : c ∈ clients) :
    (writeOk c.1 = true →
        c.1 ∈ (broadcastLoop writeOk clients).2 ∧ c ∈ (broadcastLoop writeOk clients).1)
  ∧ (writeOk c.1 = false → c ∉ (broadcastLoop writeOk clients).1)
  ∧ (∀ e ∈ (broadcastLoop writeOk clients).1, e ∈ clients) := by
  rw [broadcastLoop_eq]
  refine ⟨fun hok => ?_, fun hfail => ?_, fun e he => ?_⟩
  · exact ⟨List.mem_map_of_mem _ (List.mem_filter.mpr ⟨hc, hok⟩),
      List.mem_filter.mpr ⟨hc, hok⟩⟩
  · intro hmem
    have := (List.mem_filter.mp hmem).2
    rw [hfail] at this
    cases this
  · exact List.mem_of_mem_filter he

/-- Witness for C6: of two registered connections, the one whose write
fails is removed, the other receives the update and stays. -/
theorem claim_C6_broadcast_isolation_witness :
    ((1 : Nat) ∈ (broadcastLoop (fun n => n == 1) [(1, "left"), (2, "right")]).2
      ∧ ((1 : Nat), "left") ∈ (broadcastLoop (fun n => n == 1) [(1, "left"), (2, "right")]).1)
  ∧ ((2 : Nat), "right") ∉ (broadcastLoop (fun n => n == 1) [(1, "left"), (2, "right")]).1 :=
  ⟨(claim_C6_broadcast_isolation (fun n => n == 1) [(1, "left"), (2, "right")]
      (1, "left") (by decide)).1 (by decide),
   (claim_C6_broadcast_isolation (fun n => n == 1) [(1, "left"), (2, "right")]
      (2, "right") (by decide)).2.1 (by decide)⟩

/-- C7: assignment grants left whenever left is unoccupied, else right
whenever right is unoccupied, else none; a none result leaves the
registry unchanged, and connection setup then sends only the error
message and does not register the connection for fan-out. -/
theorem claim_C7_assign_priority (conn : Nat) (reg : Registry) (clients : Clients)
    (gs : GameState) :
    ((assignPlayer conn reg).1
        = (if roleOccupied reg "left" then
             (if roleOccupied reg "right" then "none" else "right")
           else "left"))
  ∧ (roleOccupied reg "left" = true → roleOccupied reg "right" = true →
      (assignPlayer conn reg).2 = reg
        ∧ handleConnSetup conn reg clients gs = (reg, clients, [errorNoneMessage])) := by
  constructor
  · by_cases hl : roleOccupied reg "left" <;> by_cases hr : roleOccupied reg "right" <;>
      simp [assignPlayer, scanRoles_eq, hl, hr]
  · intro hl hr
    have h := assign_full_none conn reg hl hr
    refine ⟨by rw [h], ?_⟩
    simp [handleConnSetup, h]

/-- Witness for C7 at the fully occupied registry. -/
theorem claim_C7_assign_priority_witness :
    ((assignPlayer 3 regFull).1
        = (if roleOccupied regFull "left" then
             (if roleOccupied regFull "right" then "none" else "right")
           else "left"))
  ∧ ((assignPlayer 3 regFull).2 = regFull
      ∧ handleConnSetup 3 regFull [] initialGameState
          = (regFull, [], [errorNoneMessage])) :=
  ⟨(claim_C7_assign_priority 3 regFull [] initialGameState).1,
   (claim_C7_assign_priority 3 regFull [] initialGameState).2 (by decide) (by decide)⟩

/-- Counterexample to C8 as stated: connection 2 is granted the right
seat; after both connections disconnect (connection 2 last, freeing
right), the next assignment grants left, not the freed right seat. -/
theorem claim_C8_cex :
    (assignPlayer 2 (assignPlayer 1 []).2).1 = "right"
  ∧ (assignPlayer 3 (releasePlayer 2 (releasePlayer 1
        (assignPlayer 2 (assignPlayer 1 []).2).2))).1 ≠ "right" := by decide

/-- C8 amended: after a connection holding a seat disconnects and its
cleanup runs, that connection is out of the fan-out set and the seat is
unoccupied again; a new connection's assignment grants the freed seat
whenever the freed seat is left, or whenever the freed seat is right and
left is still occupied — with both seats free, assignment grants left
regardless of which seat was freed. -/
theorem claim_C8_seat_reuse (reg : Registry) (clients : Clients) (c : Nat)
    (s : String) (hreach : ReachableReg reg) (hmem : (c, s) ∈ reg) :
    (∀ e ∈ (disconnectCleanup c reg clients).2, e.1 ≠ c)
  ∧ roleOccupied (disconnectCleanup c reg clients).1 s = false
  ∧ (s = "left" →
      ∀ c2, (assignPlayer c2 (disconnectCleanup c reg clients).1).1 = "left")
  ∧ (s = "right" → roleOccupied (disconnectCleanup c reg clients).1 "left" = true →
      ∀ c2, (assignPlayer c2 (disconnectCleanup c reg clients).1).1 = "right") := by
  have hcount : countRole reg s ≤ 1 := reachable_countRole_le_one reg hreach s
  have hfree : roleOccupied (releasePlayer c reg) s = false :=
    role_free_after_release reg c s hmem hcount
  simp only [disconnectCleanup]
  refine ⟨fun e he => ?_, hfree, fun hs c2 => ?_, fun hs hl c2 => ?_⟩
  · have := (List.mem_filter.mp he).2
    simpa using this
  · rw [hs] at hfree
    rw [assign_grants_left c2 _ hfree]
  · rw [hs] at hfree
    rw [assign_grants_right c2 _ hl hfree]

/-- Witness for C8 amended: connection 1 held left in the full registry;
after its cleanup the left seat is free, connection 1 is out of the
fan-out set, and a new connection is granted left. -/
theorem claim_C8_seat_reuse_witness :
    (∀ e ∈ (disconnectCleanup 1 regFull [(1, "left"), (2, "right")]).2, e.1 ≠ 1)
  ∧ roleOccupied (disconnectCleanup 1 regFull [(1, "left"), (2, "right")]).1 "left" = false
  ∧ (assignPlayer 3 (disconnectCleanup 1 regFull [(1, "left"), (2, "right")]).1).1 = "left" :=
  ⟨(claim_C8_seat_reuse regFull [(1, "left"), (2, "right")] 1 "left"
      regFull_reachable (by decide)).1,
   (claim_C8_seat_reuse regFull [(1, "left"), (2, "right")] 1 "left"
      regFull_reachable (by decide)).2.1,
   (claim_C8_seat_reuse regFull [(1, "left"), (2, "right")] 1 "left"
      regFull_reachable (by decide)).2.2.1 rfl 3⟩

/-- C9: updateBallPosition integrates the ball position by exactly its
velocity before the collision and terminal checks run, so a tick on which
no wall, paddle or terminal condition fires advances (X, Y) by exactly
(Vx, Vy) and leaves the velocity unchanged. -/
theorem claim_C9_integration (leftY rightY : Int) (b : Ball)
    (hwallLo : 0 < b.Y + b.Vy) (hwallHi : b.Y + b.Vy < (CanvasHeight : ℚ))
    (hleft : ¬(b.X + b.Vx ≤ (PaddleWidth : ℚ)
        ∧ goInt (b.Y + b.Vy) ≥ leftY ∧ goInt (b.Y + b.Vy) ≤ leftY + PaddleHeight))
    (hright : ¬(b.X + b.Vx ≥ ((CanvasWidth - PaddleWidth : Int) : ℚ)
        ∧ goInt (b.Y + b.Vy) ≥ rightY ∧ goInt (b.Y + b.Vy) ≤ rightY + PaddleHeight))
    (hlo : 0 ≤ b.X + b.Vx) (hhi : b.X + b.Vx ≤ (CanvasWidth : ℚ)) :
    updateBallPosition leftY rightY b
      = ({ X := b.X + b.Vx, Y := b.Y + b.Vy, Vx := b.Vx, Vy := b.Vy }, none) := by
  simp only [updateBallPosition]
  simp only [if_neg (not_le.mpr hwallLo)]
  simp only [if_neg (not_le.mpr hwallHi)]
  simp only [if_if_neg _ _ _ _ hleft]
  simp only [if_if_neg _ _ _ _ hright]
  simp only [if_neg (not_lt.mpr hlo)]
  simp only [if_neg (not_lt.mpr hhi)]

/-- Witness for C9 at the initial ball and centered paddles: one tick
advances (400, 300) to (404, 304) with velocity (4, 4) unchanged. -/
theorem claim_C9_integration_witness :
    updateBallPosition 250 250 { X := 400, Y := 300, Vx := 4, Vy := 4 }
      = ({ X := 404, Y := 304, Vx := 4, Vy := 4 }, none) := by
  have h := claim_C9_integration 250 250 { X := 400, Y := 300, Vx := 4, Vy := 4 }
    (by norm_num) (by norm_num [CanvasHeight])
    (fun hc => absurd hc.1 (by norm_num [PaddleWidth]))
    (fun hc => absurd hc.1 (by norm_num [CanvasWidth, PaddleWidth]))
    (by norm_num) (by norm_num [CanvasWidth])
  exact h.trans (by norm_num)

/-- C10: a move naming left leaves the right paddle unchanged, a move
naming right leaves the left paddle unchanged, and a move naming any
other non-empty player leaves both unchanged while still triggering a
broadcast. -/
theorem claim_C10_move_frame (connPlayer p : String) (y lY rY : Int) (gs : GameState) :
    ((handleMessage connPlayer
        { type := "move", player := "left", y := some y, leftY := lY, rightY := rY }
        gs).1.PanYRight = gs.PanYRight)
  ∧ ((handleMessage connPlayer
        { type := "move", player := "right", y := some y, leftY := lY, rightY := rY }
        gs).1.PanYLeft = gs.PanYLeft)
  ∧ (p ≠ "" → p ≠ "left" → p ≠ "right" →
      handleMessage connPlayer
          { type := "move", player := p, y := some y, leftY := lY, rightY := rY } gs
        = (gs, true)) := by
  refine ⟨?_, ?_, fun h1 h2 h3 => handleMessage_other connPlayer p y lY rY gs h1 h2 h3⟩
  · rw [handleMessage_left]
  · rw [handleMessage_right]

/-- Witness for C10 with the unrecognized player string up. -/
theorem claim_C10_move_frame_witness :
    ((handleMessage "left"
        { type := "move", player := "left", y := some 7, leftY := 0, rightY := 0 }
        initialGameState).1.PanYRight = initialGameState.PanYRight)
  ∧ ((handleMessage "left"
        { type := "move", player := "right", y := some 7, leftY := 0, rightY := 0 }
        initialGameState).1.PanYLeft = initialGameState.PanYLeft)
  ∧ (handleMessage "left"
        { type := "move", player := "up", y := some 7, leftY := 0, rightY := 0 }
        initialGameState
      = (initialGameState, true)) :=
  ⟨(claim_C10_move_frame "left" "up" 7 0 0 initialGameState).1,
   (claim_C10_move_frame "left" "up" 7 0 0 initialGameState).2.1,
   (claim_C10_move_frame "left" "up" 7 0 0 initialGameState).2.2
     (by decide) (by decide) (by decide)⟩

end PongServer
